
import Mathlib

/-!
Shallow embedding of selfdrive/car/hyundai/scc_smoother.py (SccSmoother).

Python floats are modelled as rationals.  The mutable object state (the
SccSmoother instance fields together with the module-level globals
AliveIndex, WaitIndex and the shuffled WAIT_COUNT list) is the structure
SccState; the per-tick telemetry read by update is the structure TickIn.
update returns the new state together with the synthetic CLU11 frames
appended to can_sends during the tick.
-/
/-- Cruise-stalk button codes, from selfdrive/car/hyundai/values.py
(not under src/; the numeric codes are irrelevant, only identity is used). -/
inductive Buttons where
  | NONE
  | RES_ACCEL
  | SET_DECEL
  | GAP_DIST
  | CANCEL
deriving DecidableEq, Repr

/-- Button-event types from the cereal schema (only the three used). -/
inductive BType where
  | unknown
  | accelCruise
  | decelCruise
deriving DecidableEq, Repr

/-- Alert event names used by inject_events. -/
inductive EventName where
  | sccSmootherStatus
  | slowingDownSpeedSound
  | slowingDownSpeed
deriving DecidableEq, Repr

/-- Modelled from the spec: minimum settable speed V_CRUISE_MIN from
selfdrive/controls/lib/drive_helpers.py, which is not under src/. -/
def MIN_SET_SPEED : ℚ := 8

/-- Modelled from the spec: maximum settable speed V_CRUISE_MAX from
selfdrive/controls/lib/drive_helpers.py, which is not under src/. -/
def MAX_SET_SPEED : ℚ := 144

def LIMIT_ACCEL : ℚ := 10

def LIMIT_DECEL : ℚ := 18

/-- Fixed SENDING duration table ALIVE_COUNT = [6, 8]. -/
def ALIVE_COUNT : List ℕ := [6, 8]

/-- Initial (pre-shuffle) COOLDOWN duration table WAIT_COUNT. -/
def WAIT_COUNT : List ℕ := [12, 13, 14, 15, 16]

def MIN_CURVE_SPEED : ℚ := 32

/-- Modelled from the spec: the expected fixed polyline sample count
TRAJECTORY_SIZE from selfdrive/controls/lib/lane_planner.py (not under src/). -/
def TRAJECTORY_SIZE : ℕ := 33

/-- Conversion factor CV.MS_TO_KPH = 3.6. -/
def MS_TO_KPH : ℚ := 18 / 5

/-- Conversion factor CV.KPH_TO_MS = 1 / 3.6. -/
def KPH_TO_MS : ℚ := 5 / 18

/-- Conversion factor CV.MPH_TO_KPH = 1.609344. -/
def MPH_TO_KPH : ℚ := 1609344 / 1000000

/-- Modelled from the spec: metric long-press set-speed delta
V_CRUISE_DELTA_KM from drive_helpers.py (not under src/). -/
def V_CRUISE_DELTA_KM : ℚ := 10

/-- Modelled from the spec: imperial long-press set-speed delta
V_CRUISE_DELTA_MI from drive_helpers.py (not under src/). -/
def V_CRUISE_DELTA_MI : ℚ := 5 * MPH_TO_KPH

/-- common.numpy_fast.clip: max(lo, min(hi, x)). -/
def clip (x lo hi : ℚ) : ℚ := max lo (min hi x)

/-- Inner loop of common.numpy_fast.interp over the remaining breakpoint
pairs, carrying the previous pair. -/
def interpGo (x : ℚ) (p0 : ℚ × ℚ) : List (ℚ × ℚ) → ℚ
  | [] => p0.2
  | p1 :: rest =>
      if p1.1 < x then interpGo x p1 rest
      else (x - p0.1) * (p1.2 - p0.2) / (p1.1 - p0.1) + p0.2

/-- common.numpy_fast.interp: piecewise-linear interpolation over breakpoint
pairs (xp, fp), clamped to the first and last fp values outside the range. -/
def interp (x : ℚ) (ps : List (ℚ × ℚ)) : ℚ :=
  match ps with
  | [] => 0
  | p0 :: rest => if p0.1 < x then interpGo x p0 rest else p0.2

/-- Mathematical floor of a rational, computed by floored integer
division of numerator by denominator (the denominator is positive). -/
def ratFloor (q : ℚ) : ℤ := Int.fdiv q.num q.den

/-- Python int() truncation toward zero on a rational. -/
def pyInt (q : ℚ) : ℤ := if 0 ≤ q then ratFloor q else -(ratFloor (-q))

/-- Python float modulo for a positive divisor: a - b * floor (a / b). -/
def pyMod (a b : ℚ) : ℚ := a - b * (ratFloor (a / b) : ℚ)

/-- Python max over a list of naturals (all entries nonnegative). -/
def listMax (l : List ℕ) : ℕ := l.foldl max 0

/-- Telemetry fields of the CarState object read by SccSmoother
(clu11_speed is CS.clu11 at key CF_Clu_Vanz, in km/h; cruiseState_speed
is in m/s). -/
structure CarStateIn where
  clu11_speed : ℚ
  cruiseState_enabled : Bool
  cruiseState_speed : ℚ
  acc_mode : Bool
  brake_pressed : Bool
  gas_pressed : Bool
  standstill : Bool
  cruise_buttons : Buttons
  cruise_gap : ℚ
deriving DecidableEq, Repr

/-- Tracked lead object (sm.radarState.leadOne when status is set). -/
structure LeadIn where
  dRel : ℚ
  vRel : ℚ
deriving DecidableEq, Repr

/-- Forward-path model data (sm.modelV2.position).  The numpy pipeline of
cal_curve_speed (gradient, curvature, sqrt, mean over IEEE floats) is
abstracted by its resulting model_speed value in m/s, with none standing
for a NaN result; a NaN compares false under every ordering, as in
IEEE/numpy. -/
structure ModelData where
  xLen : ℕ
  yLen : ℕ
  modelSpeed : Option ℚ
deriving DecidableEq, Repr

/-- External road_speed_limiter_get_max_speed result fields that
SccSmoother actually branches on (limit_speed and first_started); the
road_limit_speed / left_dist / log outputs are passed through unchanged. -/
structure RoadLimitIn where
  limit_speed : ℚ
  first_started : Bool
deriving DecidableEq, Repr

/-- All inputs read by one call of SccSmoother.update. -/
structure TickIn where
  enabled : Bool
  CS : CarStateIn
  lead : Option LeadIn
  model : ModelData
  roadLimit : RoadLimitIn
  v_cruise_kph : ℚ
  frame : ℕ
  apply_accel : ℚ
deriving DecidableEq, Repr

/-- Mutable state of a SccSmoother instance, together with the
module-level globals AliveIndex (aliveIndex), WaitIndex (waitIndex) and
the startup-shuffled WAIT_COUNT list (waitList).  state is the
CruiseState mode (STOCK = 0, SMOOTH = 1). -/
structure SccState where
  state : ℕ
  scc_smoother_enabled : Bool
  slow_on_curves : Bool
  sync_set_speed_while_gas_pressed : Bool
  switch_only_with_gap : Bool
  longcontrol : Bool
  accel_gain : ℚ
  decel_gain : ℚ
  curvature_gain : ℚ
  last_cruise_buttons : Buttons
  target_speed : ℚ
  started_frame : ℕ
  wait_timer : ℕ
  alive_timer : ℕ
  btn : Buttons
  alive_count : ℕ
  state_changed_alert : Bool
  slowing_down : Bool
  slowing_down_alert : Bool
  slowing_down_sound_alert : Bool
  max_speed : ℚ
  curve_speed : ℚ
  fused_decel : List ℚ
  aliveIndex : ℕ
  waitIndex : ℕ
  waitList : List ℕ
deriving DecidableEq, Repr

/-- Synthetic CLU11 frame produced by create_clu11: the copied base
message with CF_Clu_CruiseSwState set to the button and CF_Clu_AliveCnt1
set to the alive counter (the other copied fields pass through unmodified
and are omitted). -/
structure Clu11Msg where
  aliveCnt1 : ℕ
  cruiseSwState : Buttons
deriving DecidableEq, Repr

/-- SccSmoother.reset. -/
def reset (st : SccState) : SccState :=
  { st with
    wait_timer := 0
    alive_timer := 0
    btn := Buttons.NONE
    target_speed := 0
    max_speed := 0
    curve_speed := 0
    fused_decel := []
    slowing_down := false
    slowing_down_alert := false
    slowing_down_sound_alert := false }

/-- SccSmoother.get_button. -/
def get_button (st : SccState) (clu11_speed current_set_speed : ℚ) : Buttons :=
  if st.target_speed < MIN_SET_SPEED then Buttons.NONE
  else
    let error := st.target_speed - current_set_speed
    if |error| < 9 / 10 then Buttons.NONE
    else if 0 < error then Buttons.RES_ACCEL else Buttons.SET_DECEL

/-- SccSmoother.cal_curve_speed, returning the new curve_speed value.
Recomputes only when frame is a multiple of 10; otherwise the cached
value is kept.  The numpy model-speed computation is abstracted by
md.modelSpeed (none = NaN; a NaN never satisfies the comparison with
v_ego, and the final isnan guard likewise yields 300). -/
def cal_curve_speed (curve_speed : ℚ) (md : ModelData) (v_ego : ℚ)
    (frame : ℕ) : ℚ :=
  if frame % 10 = 0 then
    if md.xLen = TRAJECTORY_SIZE ∧ md.yLen = TRAJECTORY_SIZE then
      match md.modelSpeed with
      | none => 300
      | some ms =>
          if ms < v_ego then max (ms * MS_TO_KPH) MIN_CURVE_SPEED else 300
    else 300
  else curve_speed

/-- SccSmoother.get_long_lead_speed. -/
def get_long_lead_speed (st : SccState) (cs : CarStateIn) (clu11_speed : ℚ)
    (lead : Option LeadIn) : ℚ :=
  if st.longcontrol ∧ st.scc_smoother_enabled then
    match lead with
    | none => 0
    | some L =>
        let d := L.dRel - 5
        let cruise_gap := clip cs.cruise_gap 1 4
        if (0 < d ∧ d < -L.vRel * (9 + cruise_gap) * 2) ∧ L.vRel < -1 then
          let t := d / L.vRel
          let accel := -(L.vRel / t) * MS_TO_KPH * (st.decel_gain * (8 / 5))
          if accel < 0 then max (clu11_speed + accel) MIN_SET_SPEED else 0
        else 0
  else 0

/-- Breakpoint table of the speed-dependent shaping curve in cal_acc. -/
def accShapeTable : List (ℚ × ℚ) :=
  [(0, 23 / 10), (30, 17 / 5), (38, 16 / 5), (50, 17 / 10),
   (51, 33 / 20), (60, 7 / 5), (100, 1)]

/-- Breakpoint table of the speed-dependent accel-gain curve in cal_acc. -/
def accGainTable : List (ℚ × ℚ) :=
  [(35, 3 / 2), (60, 5 / 4), (100, 6 / 5)]

/-- SccSmoother.cal_acc: blended, asymmetrically gained and clamped
acceleration command together with the raw lead-correction term. -/
def cal_acc (st : SccState) (apply_accel : ℚ) (cs : CarStateIn)
    (clu11_speed : ℚ) (lead : Option LeadIn) : ℚ × ℚ :=
  let cruise_gap := clip cs.cruise_gap 1 4
  let op_accel := apply_accel * MS_TO_KPH
  let base : ℚ × ℚ :=
    match lead with
    | none => (op_accel, 0)
    | some L =>
        let d := L.dRel - 5
        if (0 < d ∧ d < -L.vRel * (77 / 10 + cruise_gap) * 2) ∧ L.vRel < -1 then
          let t := d / L.vRel
          let acc := -(L.vRel / t) * MS_TO_KPH * (46 / 25)
          ((op_accel + acc) / 2, acc)
        else if (12 < L.dRel ∧ L.dRel < 40) ∧ clu11_speed < 15 * MS_TO_KPH then
          (op_accel * (19 / 5), 0)
        else
          (op_accel * interp clu11_speed accShapeTable, 0)
  let accel :=
    if 0 < base.1 then base.1 * (st.accel_gain * interp clu11_speed accGainTable)
    else base.1 * (st.decel_gain * (9 / 5))
  (clip accel (-LIMIT_DECEL) LIMIT_ACCEL, base.2)

/-- SccSmoother.update_max_speed: snap when not in longcontrol or when the
persisted maximum is uninitialized, first-order filter otherwise. -/
def update_max_speed (st : SccState) (max_speed : ℚ) : SccState :=
  if st.longcontrol = false ∨ st.max_speed ≤ 0 then
    { st with max_speed := max_speed }
  else
    { st with max_speed := st.max_speed + (max_speed - st.max_speed) * (1 / 100) }

/-- SccSmoother.cal_max_speed: curvature update, lead/limit ceiling merge,
slowing-down alert logic and max-speed smoothing.  The road limiter call
is an external collaborator and enters through tin.roadLimit. -/
def cal_max_speed (st : SccState) (tin : TickIn) : SccState :=
  let st1 := { st with
    curve_speed := cal_curve_speed st.curve_speed tin.model
      (tin.CS.clu11_speed * KPH_TO_MS) tin.frame }
  let m1 : ℚ :=
    if st1.slow_on_curves ∧ MIN_CURVE_SPEED ≤ st1.curve_speed then
      min tin.v_cruise_kph st1.curve_speed
    else tin.v_cruise_kph
  let lead_speed := get_long_lead_speed st1 tin.CS tin.CS.clu11_speed tin.lead
  let m2 := if MIN_SET_SPEED ≤ lead_speed then min m1 lead_speed else m1
  if (30 : ℚ) ≤ tin.roadLimit.limit_speed then
    let st2 :=
      if tin.roadLimit.first_started then
        { st1 with max_speed := tin.CS.clu11_speed }
      else st1
    let m3 := min m2 tin.roadLimit.limit_speed
    let st3 :=
      if tin.roadLimit.limit_speed < tin.CS.clu11_speed then
        let st' :=
          if st2.slowing_down_alert = false ∧ st2.slowing_down = false then
            { st2 with slowing_down_sound_alert := true, slowing_down := true }
          else st2
        { st' with slowing_down_alert := true }
      else { st2 with slowing_down_alert := false }
    update_max_speed st3 ((pyInt (m3 + 1 / 2) : ℤ) : ℚ)
  else
    let st2 := { st1 with slowing_down_alert := false, slowing_down := false }
    update_max_speed st2 ((pyInt (m2 + 1 / 2) : ℤ) : ℚ)

/-- SccSmoother.dispatch_buttons: result is the new state, the changed
flag, and the value written to the persistent settings store (the Params
put of SccSmootherState), none when nothing was persisted. -/
def dispatch_buttons (st : SccState) (cs : CarStateIn) :
    SccState × Bool × Option ℕ :=
  if st.last_cruise_buttons ≠ cs.cruise_buttons then
    let st1 := { st with last_cruise_buttons := cs.cruise_buttons }
    if cs.cruiseState_enabled = false ∧
        ((st1.switch_only_with_gap = false ∧ cs.cruise_buttons = Buttons.CANCEL) ∨
          cs.cruise_buttons = Buttons.GAP_DIST) then
      let s1 := st1.state + 1
      let s2 := if 2 ≤ s1 then 0 else s1
      ({ st1 with state := s2, state_changed_alert := true }, true, some s2)
    else (st1, false, none)
  else (st, false, none)

/-- SccSmoother.inject_events: one-shot mode-change alert, then either the
one-shot slowing-down sound alert or the level-triggered visual alert. -/
def inject_events (st : SccState) : SccState × List EventName :=
  let p1 : SccState × List EventName :=
    if st.state_changed_alert then
      ({ st with state_changed_alert := false }, [EventName.sccSmootherStatus])
    else (st, [])
  let p2 : SccState × List EventName :=
    if p1.1.slowing_down_sound_alert then
      ({ p1.1 with slowing_down_sound_alert := false },
        [EventName.slowingDownSpeedSound])
    else if p1.1.slowing_down_alert then (p1.1, [EventName.slowingDownSpeed])
    else (p1.1, [])
  (p2.1, p1.2 ++ p2.2)

/-- SccSmoother.cal_target_speed, also returning the possibly updated
controls.v_cruise_kph. -/
def cal_target_speed (st : SccState) (accel : ℚ) (tin : TickIn) :
    SccState × ℚ :=
  if st.longcontrol = false then
    if tin.CS.gas_pressed then
      let v' :=
        if tin.v_cruise_kph < tin.CS.clu11_speed ∧
            st.sync_set_speed_while_gas_pressed then
          clip tin.CS.clu11_speed MIN_SET_SPEED MAX_SET_SPEED
        else tin.v_cruise_kph
      ({ st with target_speed :=
          (clip tin.CS.clu11_speed MIN_SET_SPEED st.max_speed) }, v')
    else
      ({ st with target_speed :=
          (clip (tin.CS.clu11_speed + accel) MIN_SET_SPEED st.max_speed) },
        tin.v_cruise_kph)
  else
    if tin.CS.gas_pressed ∧ tin.CS.cruiseState_enabled ∧
        (tin.v_cruise_kph < tin.CS.clu11_speed + 2) ∧
        st.sync_set_speed_while_gas_pressed then
      ({ st with target_speed :=
          (clip (tin.CS.clu11_speed + 2) MIN_SET_SPEED MAX_SET_SPEED) },
        tin.v_cruise_kph)
    else (st, tin.v_cruise_kph)

/-- Condition ascc_enabled computed at the top of update:
CS.acc_mode and enabled and CS.cruiseState_enabled and
1 < CS.cruiseState_speed < 255 and not CS.brake_pressed. -/
def asccEnabled (tin : TickIn) : Bool :=
  tin.CS.acc_mode && tin.enabled && tin.CS.cruiseState_enabled &&
    decide (1 < tin.CS.cruiseState_speed) &&
    decide (tin.CS.cruiseState_speed < 255) && !tin.CS.brake_pressed

/-- Tail of SccSmoother.update from the wait_timer check onward: the
cooldown countdown, button refresh via get_button and get_alive_count,
frame emission via create_clu11, and phase bookkeeping via
get_wait_count. -/
def buttonPhase (st : SccState) (tin : TickIn) (ascc : Bool) :
    SccState × List Clu11Msg :=
  if 0 < st.wait_timer then
    ({ st with wait_timer := st.wait_timer - 1 }, [])
  else if ascc then
    let st1 :=
      if st.alive_timer = 0 then
        { st with
          btn := get_button st tin.CS.clu11_speed
            (tin.CS.cruiseState_speed * MS_TO_KPH)
          alive_count := ALIVE_COUNT.getD st.aliveIndex 0
          aliveIndex :=
            if 2 ≤ st.aliveIndex + 1 then 0 else st.aliveIndex + 1 }
      else st
    if st1.btn ≠ Buttons.NONE then
      let msg : Clu11Msg := ⟨st1.alive_timer, st1.btn⟩
      let st2 :=
        if st1.alive_timer = 0 then { st1 with started_frame := tin.frame }
        else st1
      let st3 := { st2 with alive_timer := st2.alive_timer + 1 }
      let st4 :=
        if st3.alive_count ≤ st3.alive_timer then
          { st3 with
            alive_timer := 0
            wait_timer := st3.waitList.getD st3.waitIndex 0
            waitIndex :=
              if st3.waitList.length ≤ st3.waitIndex + 1 then 0
              else st3.waitIndex + 1
            btn := Buttons.NONE }
        else st3
      (st4, [msg])
    else
      if st1.longcontrol ∧ MIN_SET_SPEED ≤ st1.target_speed then
        ({ st1 with target_speed := 0 }, [])
      else (st1, [])
  else
    if st.longcontrol then ({ st with target_speed := 0 }, []) else (st, [])

/-- Result of one SccSmoother.update call: new state, CLU11 frames
appended to can_sends, settings-store write (if any), and the new
controls.v_cruise_kph. -/
structure UpdateOut where
  st : SccState
  sends : List Clu11Msg
  persisted : Option ℕ
  vCruise : ℚ
deriving DecidableEq, Repr

/-- SccSmoother.update. -/
def update (st : SccState) (tin : TickIn) : UpdateOut :=
  let st1 := cal_max_speed st tin
  let ascc := asccEnabled tin
  if st1.longcontrol = false then
    if st1.scc_smoother_enabled = false then
      ⟨reset st1, [], none, tin.v_cruise_kph⟩
    else
      let d := dispatch_buttons st1 tin.CS
      if d.2.1 then ⟨reset d.1, [], d.2.2, tin.v_cruise_kph⟩
      else if d.1.state = 0 ∨ ascc = false ∨ tin.CS.standstill = true ∨
          tin.CS.cruise_buttons ≠ Buttons.NONE then
        ⟨{ reset d.1 with
            wait_timer := listMax ALIVE_COUNT + listMax d.1.waitList },
          [], d.2.2, tin.v_cruise_kph⟩
      else
        let accel := (cal_acc d.1 tin.apply_accel tin.CS tin.CS.clu11_speed
          tin.lead).1
        let ct := cal_target_speed d.1 accel tin
        let bp := buttonPhase ct.1 tin ascc
        ⟨bp.1, bp.2, d.2.2, ct.2⟩
  else
    let st2 := { st1 with state := 0 }
    let st3 := if ascc = false then reset st2 else st2
    let ct := cal_target_speed st3 0 tin
    let bp := buttonPhase ct.1 tin ascc
    ⟨bp.1, bp.2, none, ct.2⟩

/-- One state step of update (the emitted frames discarded). -/
def stepState (st : SccState) (tin : TickIn) : SccState := (update st tin).st

/-- Iterated update under a constant telemetry input. -/
def iterState (st : SccState) (tin : TickIn) : ℕ → SccState
  | 0 => st
  | Nat.succ k => stepState (iterState st tin k) tin

/-- Frames emitted on the k-th tick of a run under a constant input. -/
def sendsAt (st : SccState) (tin : TickIn) (k : ℕ) : List Clu11Msg :=
  (update (iterState st tin k) tin).sends

/-- Module-level globals of the Manual Set-Speed Adjuster
(ButtonCnt, LongPressed, ButtonPrev). -/
structure VCState where
  buttonCnt : ℕ
  longPressed : Bool
  buttonPrev : BType
deriving DecidableEq, Repr

/-- One physical button event consumed by update_v_cruise. -/
structure BEvent where
  pressed : Bool
  btype : BType
deriving DecidableEq, Repr

/-- SccSmoother.update_v_cruise, with the module globals threaded
explicitly.  Returns the new globals and the new v_cruise_kph. -/
def update_v_cruise (g : VCState) (v_cruise_kph : ℚ)
    (buttonEvents : List BEvent) (enabled metric : Bool) : VCState × ℚ :=
  if enabled then
    let g1 := if g.buttonCnt ≠ 0 then { g with buttonCnt := g.buttonCnt + 1 }
      else g
    let p := buttonEvents.foldl
      (fun (p : VCState × ℚ) b =>
        if b.pressed ∧ p.1.buttonCnt = 0 ∧
            (b.btype = BType.accelCruise ∨ b.btype = BType.decelCruise) then
          ({ p.1 with buttonCnt := 1, buttonPrev := b.btype }, p.2)
        else if b.pressed = false ∧ p.1.buttonCnt ≠ 0 then
          let v' :=
            if p.1.longPressed = false ∧ b.btype = BType.accelCruise then
              p.2 + (if metric then 1 else 1 * MPH_TO_KPH)
            else if p.1.longPressed = false ∧ b.btype = BType.decelCruise then
              p.2 - (if metric then 1 else 1 * MPH_TO_KPH)
            else p.2
          ({ p.1 with longPressed := false, buttonCnt := 0 }, v')
        else p)
      (g1, v_cruise_kph)
    let q :=
      if 70 < p.1.buttonCnt then
        let D := if metric then V_CRUISE_DELTA_KM else V_CRUISE_DELTA_MI
        let v' :=
          if p.1.buttonPrev = BType.accelCruise then p.2 + (D - pyMod p.2 D)
          else if p.1.buttonPrev = BType.decelCruise then
            p.2 - (D - pyMod (-p.2) D)
          else p.2
        ({ p.1 with longPressed := true, buttonCnt := p.1.buttonCnt % 70 }, v')
      else p
    (q.1, clip q.2 MIN_SET_SPEED MAX_SET_SPEED)
  else (g, v_cruise_kph)

/-- Concrete car-state fixture used by the concrete instances below:
adaptive cruise engaged at displayed 36 km/h (10 m/s), vehicle at
60 km/h, no pedals, no stalk buttons, gap 2. -/
def baseCS : CarStateIn :=
  { clu11_speed := 60
    cruiseState_enabled := true
    cruiseState_speed := 10
    acc_mode := true
    brake_pressed := false
    gas_pressed := false
    standstill := false
    cruise_buttons := Buttons.NONE
    cruise_gap := 2 }

/-- Concrete model-data fixture (valid length, pipeline result NaN). -/
def baseModel : ModelData := { xLen := 33, yLen := 33, modelSpeed := none }

/-- Concrete road-limit fixture: no valid external limit. -/
def baseRoad : RoadLimitIn := { limit_speed := 0, first_started := false }

/-- Concrete telemetry fixture for one tick (frame 1, so the curvature
estimate is not re-evaluated). -/
def baseTick : TickIn :=
  { enabled := true
    CS := baseCS
    lead := none
    model := baseModel
    roadLimit := baseRoad
    v_cruise_kph := 60
    frame := 1
    apply_accel := 0 }

/-- Concrete controller-state fixture: SMOOTH mode, feature enabled,
idle button protocol, identity gains, identity-order shuffled cooldown
table. -/
def baseState : SccState :=
  { state := 1
    scc_smoother_enabled := true
    slow_on_curves := false
    sync_set_speed_while_gas_pressed := false
    switch_only_with_gap := false
    longcontrol := false
    accel_gain := 1
    decel_gain := 1
    curvature_gain := 1
    last_cruise_buttons := Buttons.NONE
    target_speed := 0
    started_frame := 0
    wait_timer := 0
    alive_timer := 0
    btn := Buttons.NONE
    alive_count := 6
    state_changed_alert := false
    slowing_down := false
    slowing_down_alert := false
    slowing_down_sound_alert := false
    max_speed := 0
    curve_speed := 0
    fused_decel := []
    aliveIndex := 0
    waitIndex := 0
    waitList := [12, 13, 14, 15, 16] }

/-- Concrete state for the speed-ceiling counterexample: latch and visual
alert both set. -/
def c5St : SccState :=
  { baseState with slowing_down := true, slowing_down_alert := true }

/-- Concrete tick for the speed-ceiling counterexample: valid limit 50,
current speed 40 (no longer exceeding the limit). -/
def c5Tick : TickIn :=
  { baseTick with
    roadLimit := { limit_speed := 50, first_started := false }
    CS := { baseCS with clu11_speed := 40 } }

/-- Concrete state for the emission counterexamples: longcontrol
configuration with a previously stored valid target speed. -/
def c1St : SccState := { baseState with longcontrol := true, target_speed := 50 }

/-- Concrete tick with the vehicle at standstill. -/
def c1Tick : TickIn := { baseTick with CS := { baseCS with standstill := true } }

/-- Concrete state for the feature-disabled counterexample: longcontrol
configuration with the smoothing feature disabled and a stored target. -/
def c6St : SccState :=
  { baseState with
    longcontrol := true
    scc_smoother_enabled := false
    target_speed := 50 }

/-- State reached inside update on the smooth (non-longcontrol, enabled,
unchanged-mode, engaged) path just before the button-timer logic:
cal_max_speed, then cal_acc, then cal_target_speed. -/
def smoothStage (st : SccState) (tin : TickIn) : SccState :=
  (cal_target_speed (cal_max_speed st tin)
    ((cal_acc (cal_max_speed st tin) tin.apply_accel tin.CS
      tin.CS.clu11_speed tin.lead).1) tin).1

/-- Telemetry keeping the button protocol running: adaptive cruise
actively engaged, not at standstill, no physical cruise button pressed. -/
def SteadyIn (tin : TickIn) : Prop :=
  asccEnabled tin = true ∧ tin.CS.standstill = false ∧
    tin.CS.cruise_buttons = Buttons.NONE

/-- Mid-phase invariant of a SENDING phase: k ticks of the phase already
emitted, direction b latched, alive_count n drawn at phase start, the
cooldown table and index untouched since phase start. -/
def Mid (tin : TickIn) (b : Buttons) (n : ℕ) (wl : List ℕ) (wi : ℕ)
    (k : ℕ) (st : SccState) : Prop :=
  st.longcontrol = false ∧ st.scc_smoother_enabled = true ∧ st.state = 1 ∧
    st.last_cruise_buttons = tin.CS.cruise_buttons ∧ st.wait_timer = 0 ∧
    st.alive_timer = k ∧ st.btn = b ∧ st.alive_count = n ∧
    st.waitList = wl ∧ st.waitIndex = wi

/-- Concrete state on the final tick of a SENDING phase. -/
def c4St : SccState :=
  { baseState with
    btn := Buttons.RES_ACCEL
    alive_timer := 5
    alive_count := 6
    target_speed := 60 }

/-- Concrete tick with cruise disengaged and a rising gap-button edge. -/
def c8Tick : TickIn :=
  { baseTick with
    CS := { baseCS with
      cruiseState_enabled := false
      cruise_buttons := Buttons.GAP_DIST } }

/-!
Projection lemmas: fields untouched by each state-transforming component.
-/
theorem cal_max_speed_state (st : SccState) (tin : TickIn) :
    (cal_max_speed st tin).state = st.state := by
  simp only [cal_max_speed, update_max_speed]
  repeat' split
  all_goals rfl

theorem cal_max_speed_scc_smoother_enabled (st : SccState) (tin : TickIn) :
    (cal_max_speed st tin).scc_smoother_enabled = st.scc_smoother_enabled := by
  simp only [cal_max_speed, update_max_speed]
  repeat' split
  all_goals rfl

theorem cal_max_speed_slow_on_curves (st : SccState) (tin : TickIn) :
    (cal_max_speed st tin).slow_on_curves = st.slow_on_curves := by
  simp only [cal_max_speed, update_max_speed]
  repeat' split
  all_goals rfl

theorem cal_max_speed_sync_set_speed_while_gas_pressed (st : SccState) (tin : TickIn) :
    (cal_max_speed st tin).sync_set_speed_while_gas_pressed = st.sync_set_speed_while_gas_pressed := by
  simp only [cal_max_speed, update_max_speed]
  repeat' split
  all_goals rfl

theorem cal_max_speed_switch_only_with_gap (st : SccState) (tin : TickIn) :
    (cal_max_speed st tin).switch_only_with_gap = st.switch_only_with_gap := by
  simp only [cal_max_speed, update_max_speed]
  repeat' split
  all_goals rfl

theorem cal_max_speed_longcontrol (st : SccState) (tin : TickIn) :
    (cal_max_speed st tin).longcontrol = st.longcontrol := by
  simp only [cal_max_speed, update_max_speed]
  repeat' split
  all_goals rfl

theorem cal_max_speed_last_cruise_buttons (st : SccState) (tin : TickIn) :
    (cal_max_speed st tin).last_cruise_buttons = st.last_cruise_buttons := by
  simp only [cal_max_speed, update_max_speed]
  repeat' split
  all_goals rfl

theorem cal_max_speed_target_speed (st : SccState) (tin : TickIn) :
    (cal_max_speed st tin).target_speed = st.target_speed := by
  simp only [cal_max_speed, update_max_speed]
  repeat' split
  all_goals rfl

theorem cal_max_speed_wait_timer (st : SccState) (tin : TickIn) :
    (cal_max_speed st tin).wait_timer = st.wait_timer := by
  simp only [cal_max_speed, update_max_speed]
  repeat' split
  all_goals rfl

theorem cal_max_speed_alive_timer (st : SccState) (tin : TickIn) :
    (cal_max_speed st tin).alive_timer = st.alive_timer := by
  simp only [cal_max_speed, update_max_speed]
  repeat' split
  all_goals rfl

theorem cal_max_speed_btn (st : SccState) (tin : TickIn) :
    (cal_max_speed st tin).btn = st.btn := by
  simp only [cal_max_speed, update_max_speed]
  repeat' split
  all_goals rfl

theorem cal_max_speed_alive_count (st : SccState) (tin : TickIn) :
    (cal_max_speed st tin).alive_count = st.alive_count := by
  simp only [cal_max_speed, update_max_speed]
  repeat' split
  all_goals rfl

theorem cal_max_speed_state_changed_alert (st : SccState) (tin : TickIn) :
    (cal_max_speed st tin).state_changed_alert = st.state_changed_alert := by
  simp only [cal_max_speed, update_max_speed]
  repeat' split
  all_goals rfl

theorem cal_max_speed_aliveIndex (st : SccState) (tin : TickIn) :
    (cal_max_speed st tin).aliveIndex = st.aliveIndex := by
  simp only [cal_max_speed, update_max_speed]
  repeat' split
  all_goals rfl

theorem cal_max_speed_waitIndex (st : SccState) (tin : TickIn) :
    (cal_max_speed st tin).waitIndex = st.waitIndex := by
  simp only [cal_max_speed, update_max_speed]
  repeat' split
  all_goals rfl

theorem cal_max_speed_waitList (st : SccState) (tin : TickIn) :
    (cal_max_speed st tin).waitList = st.waitList := by
  simp only [cal_max_speed, update_max_speed]
  repeat' split
  all_goals rfl

theorem cal_max_speed_fused_decel (st : SccState) (tin : TickIn) :
    (cal_max_speed st tin).fused_decel = st.fused_decel := by
  simp only [cal_max_speed, update_max_speed]
  repeat' split
  all_goals rfl

theorem cal_max_speed_started_frame (st : SccState) (tin : TickIn) :
    (cal_max_speed st tin).started_frame = st.started_frame := by
  simp only [cal_max_speed, update_max_speed]
  repeat' split
  all_goals rfl

theorem dispatch_buttons_scc_smoother_enabled (st : SccState) (cs : CarStateIn) :
    ((dispatch_buttons st cs).1).scc_smoother_enabled = st.scc_smoother_enabled := by
  simp only [dispatch_buttons]
  repeat' split
  all_goals rfl

theorem dispatch_buttons_longcontrol (st : SccState) (cs : CarStateIn) :
    ((dispatch_buttons st cs).1).longcontrol = st.longcontrol := by
  simp only [dispatch_buttons]
  repeat' split
  all_goals rfl

theorem dispatch_buttons_wait_timer (st : SccState) (cs : CarStateIn) :
    ((dispatch_buttons st cs).1).wait_timer = st.wait_timer := by
  simp only [dispatch_buttons]
  repeat' split
  all_goals rfl

theorem dispatch_buttons_alive_timer (st : SccState) (cs : CarStateIn) :
    ((dispatch_buttons st cs).1).alive_timer = st.alive_timer := by
  simp only [dispatch_buttons]
  repeat' split
  all_goals rfl

theorem dispatch_buttons_btn (st : SccState) (cs : CarStateIn) :
    ((dispatch_buttons st cs).1).btn = st.btn := by
  simp only [dispatch_buttons]
  repeat' split
  all_goals rfl

theorem dispatch_buttons_alive_count (st : SccState) (cs : CarStateIn) :
    ((dispatch_buttons st cs).1).alive_count = st.alive_count := by
  simp only [dispatch_buttons]
  repeat' split
  all_goals rfl

theorem dispatch_buttons_target_speed (st : SccState) (cs : CarStateIn) :
    ((dispatch_buttons st cs).1).target_speed = st.target_speed := by
  simp only [dispatch_buttons]
  repeat' split
  all_goals rfl

theorem dispatch_buttons_aliveIndex (st : SccState) (cs : CarStateIn) :
    ((dispatch_buttons st cs).1).aliveIndex = st.aliveIndex := by
  simp only [dispatch_buttons]
  repeat' split
  all_goals rfl

theorem dispatch_buttons_waitIndex (st : SccState) (cs : CarStateIn) :
    ((dispatch_buttons st cs).1).waitIndex = st.waitIndex := by
  simp only [dispatch_buttons]
  repeat' split
  all_goals rfl

theorem dispatch_buttons_waitList (st : SccState) (cs : CarStateIn) :
    ((dispatch_buttons st cs).1).waitList = st.waitList := by
  simp only [dispatch_buttons]
  repeat' split
  all_goals rfl

theorem dispatch_buttons_max_speed (st : SccState) (cs : CarStateIn) :
    ((dispatch_buttons st cs).1).max_speed = st.max_speed := by
  simp only [dispatch_buttons]
  repeat' split
  all_goals rfl

theorem dispatch_buttons_sync_set_speed_while_gas_pressed (st : SccState) (cs : CarStateIn) :
    ((dispatch_buttons st cs).1).sync_set_speed_while_gas_pressed = st.sync_set_speed_while_gas_pressed := by
  simp only [dispatch_buttons]
  repeat' split
  all_goals rfl

theorem dispatch_buttons_fused_decel (st : SccState) (cs : CarStateIn) :
    ((dispatch_buttons st cs).1).fused_decel = st.fused_decel := by
  simp only [dispatch_buttons]
  repeat' split
  all_goals rfl

theorem cal_target_speed_state (st : SccState) (a : ℚ) (tin : TickIn) :
    ((cal_target_speed st a tin).1).state = st.state := by
  simp only [cal_target_speed]
  repeat' split
  all_goals rfl

theorem cal_target_speed_scc_smoother_enabled (st : SccState) (a : ℚ) (tin : TickIn) :
    ((cal_target_speed st a tin).1).scc_smoother_enabled = st.scc_smoother_enabled := by
  simp only [cal_target_speed]
  repeat' split
  all_goals rfl

theorem cal_target_speed_longcontrol (st : SccState) (a : ℚ) (tin : TickIn) :
    ((cal_target_speed st a tin).1).longcontrol = st.longcontrol := by
  simp only [cal_target_speed]
  repeat' split
  all_goals rfl

theorem cal_target_speed_last_cruise_buttons (st : SccState) (a : ℚ) (tin : TickIn) :
    ((cal_target_speed st a tin).1).last_cruise_buttons = st.last_cruise_buttons := by
  simp only [cal_target_speed]
  repeat' split
  all_goals rfl

theorem cal_target_speed_wait_timer (st : SccState) (a : ℚ) (tin : TickIn) :
    ((cal_target_speed st a tin).1).wait_timer = st.wait_timer := by
  simp only [cal_target_speed]
  repeat' split
  all_goals rfl

theorem cal_target_speed_alive_timer (st : SccState) (a : ℚ) (tin : TickIn) :
    ((cal_target_speed st a tin).1).alive_timer = st.alive_timer := by
  simp only [cal_target_speed]
  repeat' split
  all_goals rfl

theorem cal_target_speed_btn (st : SccState) (a : ℚ) (tin : TickIn) :
    ((cal_target_speed st a tin).1).btn = st.btn := by
  simp only [cal_target_speed]
  repeat' split
  all_goals rfl

theorem cal_target_speed_alive_count (st : SccState) (a : ℚ) (tin : TickIn) :
    ((cal_target_speed st a tin).1).alive_count = st.alive_count := by
  simp only [cal_target_speed]
  repeat' split
  all_goals rfl

theorem cal_target_speed_aliveIndex (st : SccState) (a : ℚ) (tin : TickIn) :
    ((cal_target_speed st a tin).1).aliveIndex = st.aliveIndex := by
  simp only [cal_target_speed]
  repeat' split
  all_goals rfl

theorem cal_target_speed_waitIndex (st : SccState) (a : ℚ) (tin : TickIn) :
    ((cal_target_speed st a tin).1).waitIndex = st.waitIndex := by
  simp only [cal_target_speed]
  repeat' split
  all_goals rfl

theorem cal_target_speed_waitList (st : SccState) (a : ℚ) (tin : TickIn) :
    ((cal_target_speed st a tin).1).waitList = st.waitList := by
  simp only [cal_target_speed]
  repeat' split
  all_goals rfl

theorem cal_target_speed_state_changed_alert (st : SccState) (a : ℚ) (tin : TickIn) :
    ((cal_target_speed st a tin).1).state_changed_alert = st.state_changed_alert := by
  simp only [cal_target_speed]
  repeat' split
  all_goals rfl

theorem cal_target_speed_fused_decel (st : SccState) (a : ℚ) (tin : TickIn) :
    ((cal_target_speed st a tin).1).fused_decel = st.fused_decel := by
  simp only [cal_target_speed]
  repeat' split
  all_goals rfl

theorem dispatch_buttons_same (st : SccState) (cs : CarStateIn)
    (h : st.last_cruise_buttons = cs.cruise_buttons) :
    dispatch_buttons st cs = (st, false, none) := by
  simp [dispatch_buttons, h]

theorem buttonPhase_wait_pos (s : SccState) (t : TickIn) (a : Bool)
    (h : 0 < s.wait_timer) :
    buttonPhase s t a = ({ s with wait_timer := s.wait_timer - 1 }, []) := by
  rw [buttonPhase, if_pos h]

theorem buttonPhase_false_snd (s : SccState) (t : TickIn) :
    (buttonPhase s t false).2 = [] := by
  simp only [buttonPhase]
  repeat' split
  all_goals simp_all

theorem buttonPhase_snd_len (s : SccState) (t : TickIn) (a : Bool) :
    ((buttonPhase s t a).2).length ≤ 1 := by
  simp only [buttonPhase]
  repeat' split
  all_goals simp

theorem buttonPhase_snd_nil_of_wait (s : SccState) (t : TickIn) (a : Bool)
    (h : 0 < s.wait_timer) :
    (buttonPhase s t a).2 = [] := by
  rw [buttonPhase_wait_pos s t a h]

theorem update_sends_len (s : SccState) (t : TickIn) :
    ((update s t).sends).length ≤ 1 := by
  simp only [update]
  repeat' split
  all_goals first
    | exact buttonPhase_snd_len _ _ _
    | simp

theorem update_wait_pos_sends (s : SccState) (t : TickIn)
    (h : 0 < s.wait_timer) : (update s t).sends = [] := by
  simp only [update]
  split
  · split
    · rfl
    · split
      · rfl
      · split
        · rfl
        · exact buttonPhase_snd_nil_of_wait _ _ _ (by
            simp [cal_target_speed_wait_timer, dispatch_buttons_wait_timer,
              cal_max_speed_wait_timer, h])
  · cases ha : asccEnabled t with
    | false =>
        simp only [ha]
        exact buttonPhase_false_snd _ _
    | true =>
        simp only [ha]
        exact buttonPhase_snd_nil_of_wait _ _ _ (by
          simp [cal_target_speed_wait_timer, cal_max_speed_wait_timer, h])

theorem clip_lb (x lo hi : ℚ) : lo ≤ clip x lo hi := le_max_left _ _

theorem clip_ub (x lo hi : ℚ) (h : lo ≤ hi) : clip x lo hi ≤ hi :=
  max_le h (min_le_left _ _)

theorem update_max_speed_slowing_down (st : SccState) (m : ℚ) :
    (update_max_speed st m).slowing_down = st.slowing_down := by
  simp only [update_max_speed]
  split
  all_goals rfl

theorem update_max_speed_slowing_down_alert (st : SccState) (m : ℚ) :
    (update_max_speed st m).slowing_down_alert = st.slowing_down_alert := by
  simp only [update_max_speed]
  split
  all_goals rfl

theorem update_max_speed_slowing_down_sound_alert (st : SccState) (m : ℚ) :
    (update_max_speed st m).slowing_down_sound_alert =
      st.slowing_down_sound_alert := by
  simp only [update_max_speed]
  split
  all_goals rfl

/-- C2: for every baseline acceleration command, lead object (present or
absent), vehicle speed and cruise-gap setting, the clamped acceleration
command returned by cal_acc lies within [-LIMIT_DECEL, LIMIT_ACCEL],
that is within [-18, 10]. -/
theorem scc_C2_cal_acc_within_limits (st : SccState) (apply_accel : ℚ)
    (cs : CarStateIn) (clu11_speed : ℚ) (lead : Option LeadIn) :
    -LIMIT_DECEL ≤ (cal_acc st apply_accel cs clu11_speed lead).1 ∧
      (cal_acc st apply_accel cs clu11_speed lead).1 ≤ LIMIT_ACCEL ∧
      -LIMIT_DECEL = -18 ∧ LIMIT_ACCEL = 10 := by
  refine ⟨?_, ?_, by norm_num [LIMIT_DECEL], by norm_num [LIMIT_ACCEL]⟩
  · simp only [cal_acc]
    exact clip_lb _ _ _
  · simp only [cal_acc]
    exact clip_ub _ _ _ (by norm_num [LIMIT_DECEL, LIMIT_ACCEL])

/-- C7: the curvature speed estimate is recomputed only on ticks whose
frame index is a multiple of 10 and held constant in between; on an
evaluation tick a polyline of the wrong length yields the sentinel 300,
and a NaN pipeline result likewise yields 300. -/
theorem scc_C7_curve_speed_cache_and_fallback (cur : ℚ) (md : ModelData)
    (v_ego : ℚ) (frame : ℕ) :
    (frame % 10 ≠ 0 → cal_curve_speed cur md v_ego frame = cur) ∧
    (frame % 10 = 0 → (md.xLen ≠ TRAJECTORY_SIZE ∨ md.yLen ≠ TRAJECTORY_SIZE) →
      cal_curve_speed cur md v_ego frame = 300) ∧
    (frame % 10 = 0 → md.modelSpeed = none →
      cal_curve_speed cur md v_ego frame = 300) := by
  refine ⟨?_, ?_, ?_⟩
  · intro h
    simp [cal_curve_speed, h]
  · intro h h2
    simp only [cal_curve_speed, if_pos h]
    split
    · rcases h2 with h2 | h2 <;> simp_all
    · rfl
  · intro h h2
    simp only [cal_curve_speed, if_pos h, h2]
    split
    · rfl
    · rfl

theorem scc_C7_witness :
    cal_curve_speed 123 baseModel 5 3 = 123 ∧
      cal_curve_speed 123 ⟨5, 33, some 1⟩ 0 20 = 300 ∧
      cal_curve_speed 7 baseModel 0 0 = 300 :=
  ⟨(scc_C7_curve_speed_cache_and_fallback 123 baseModel 5 3).1 (by decide),
   (scc_C7_curve_speed_cache_and_fallback 123 ⟨5, 33, some 1⟩ 0 20).2.1
     (by decide) (Or.inl (by decide)),
   (scc_C7_curve_speed_cache_and_fallback 7 baseModel 0 0).2.2
     (by decide) rfl⟩

/-- C10: get_button returns the no-button value whenever the stored target
speed is below the minimum settable speed, for every displayed set speed
(in particular however large the error is), and consequently a tick at
alive_timer = 0 can emit no frame, so no SENDING phase can begin from an
uninitialized target speed. -/
theorem scc_C10_no_button_below_min (st : SccState) (clu cur : ℚ)
    (h : st.target_speed < MIN_SET_SPEED) :
    get_button st clu cur = Buttons.NONE ∧
      ∀ (tin : TickIn) (a : Bool), st.alive_timer = 0 →
        (buttonPhase st tin a).2 = [] := by
  have hg : ∀ c d : ℚ, get_button st c d = Buttons.NONE := by
    intro c d
    simp [get_button, h]
  refine ⟨hg clu cur, ?_⟩
  intro tin a h0
  by_cases hw : 0 < st.wait_timer
  · exact buttonPhase_snd_nil_of_wait _ _ _ hw
  · cases a with
    | false => exact buttonPhase_false_snd _ _
    | true => simp [buttonPhase, hw, h0, hg, apply_ite]

theorem scc_C10_witness :
    get_button { baseState with target_speed := 0 } 60 36 = Buttons.NONE ∧
      (buttonPhase { baseState with target_speed := 0 } baseTick true).2 = [] :=
  ⟨(scc_C10_no_button_below_min { baseState with target_speed := 0 } 60 36
      (by norm_num [baseState, MIN_SET_SPEED])).1,
   (scc_C10_no_button_below_min { baseState with target_speed := 0 } 60 36
      (by norm_num [baseState, MIN_SET_SPEED])).2 baseTick true rfl⟩

/-- C9 counterexample: with the adjuster disabled, update_v_cruise returns
its input unchanged, so a 500 km/h input stays 500, above the maximum
settable speed — the claim's clamp does not hold for every enabled-or-not
input. -/
theorem scc_C9_counterexample :
    (update_v_cruise ⟨0, false, BType.unknown⟩ 500 [] false true).2 = 500 ∧
      ¬((update_v_cruise ⟨0, false, BType.unknown⟩ 500 [] false true).2 ≤
        MAX_SET_SPEED) := by
  constructor
  · rfl
  · norm_num [update_v_cruise, MAX_SET_SPEED]

/-- C9 (amended): whenever the adjuster is enabled, the set speed returned
by update_v_cruise is clamped to [MIN_SET_SPEED, MAX_SET_SPEED], for every
starting set speed, button-event sequence, unit system and globals state;
when disabled the input is returned unchanged. -/
theorem scc_C9_clamped_when_enabled (g : VCState) (v : ℚ)
    (evs : List BEvent) (metric : Bool) :
    (MIN_SET_SPEED ≤ (update_v_cruise g v evs true metric).2 ∧
      (update_v_cruise g v evs true metric).2 ≤ MAX_SET_SPEED) ∧
      (update_v_cruise g v evs false metric).2 = v := by
  constructor
  · simp only [update_v_cruise, if_true]
    constructor
    · exact clip_lb _ _ _
    · exact clip_ub _ _ _ (by norm_num [MIN_SET_SPEED, MAX_SET_SPEED])
  · rfl

/-- C5 counterexample: with a valid limit (50 >= 30) and current speed 40
not exceeding it, cal_max_speed clears only the visual alert; the
slowing-down latch stays set, contradicting the claim that both are
cleared on any tick where current speed no longer exceeds the limit. -/
theorem scc_C5_counterexample :
    (30 ≤ c5Tick.roadLimit.limit_speed ∧
        c5Tick.CS.clu11_speed ≤ c5Tick.roadLimit.limit_speed) ∧
      (cal_max_speed c5St c5Tick).slowing_down_alert = false ∧
      (cal_max_speed c5St c5Tick).slowing_down = true := by
  refine ⟨⟨by norm_num [c5Tick], by norm_num [c5Tick, baseCS]⟩, ?_, ?_⟩ <;>
    decide

/-- C5 (amended): when the external limit is valid (at least 30), the
latch and the one-shot sound alert are raised on a tick where current
speed exceeds the limit while neither the latch nor the visual alert is
already set; on a tick where current speed no longer exceeds the limit
only the visual alert is cleared while the latch and sound flag persist;
when the limit is below the validity threshold both the visual alert and
the latch are cleared unconditionally. -/
theorem scc_C5_slowing_down_logic (st : SccState) (tin : TickIn) :
    (30 ≤ tin.roadLimit.limit_speed →
      tin.roadLimit.limit_speed < tin.CS.clu11_speed →
      st.slowing_down_alert = false → st.slowing_down = false →
      (cal_max_speed st tin).slowing_down = true ∧
        (cal_max_speed st tin).slowing_down_alert = true ∧
        (cal_max_speed st tin).slowing_down_sound_alert = true) ∧
    (30 ≤ tin.roadLimit.limit_speed →
      tin.CS.clu11_speed ≤ tin.roadLimit.limit_speed →
      (cal_max_speed st tin).slowing_down_alert = false ∧
        (cal_max_speed st tin).slowing_down = st.slowing_down ∧
        (cal_max_speed st tin).slowing_down_sound_alert =
          st.slowing_down_sound_alert) ∧
    (tin.roadLimit.limit_speed < 30 →
      (cal_max_speed st tin).slowing_down_alert = false ∧
        (cal_max_speed st tin).slowing_down = false) := by
  refine ⟨?_, ?_, ?_⟩
  · intro h1 h2 h3 h4
    simp only [cal_max_speed, if_pos h1, update_max_speed_slowing_down,
      update_max_speed_slowing_down_alert,
      update_max_speed_slowing_down_sound_alert]
    cases hfs : tin.roadLimit.first_started <;> simp [h2, h3, h4]
  · intro h1 h2
    have h2' : ¬tin.roadLimit.limit_speed < tin.CS.clu11_speed :=
      not_lt.mpr h2
    simp only [cal_max_speed, if_pos h1, update_max_speed_slowing_down,
      update_max_speed_slowing_down_alert,
      update_max_speed_slowing_down_sound_alert]
    cases hfs : tin.roadLimit.first_started <;> simp [h2']
  · intro h1
    have h1' : ¬(30 : ℚ) ≤ tin.roadLimit.limit_speed := not_le.mpr h1
    simp only [cal_max_speed, if_neg h1', update_max_speed_slowing_down,
      update_max_speed_slowing_down_alert]
    constructor <;> trivial

theorem scc_C5_witness :
    (cal_max_speed baseState
        { baseTick with roadLimit := ⟨50, false⟩ }).slowing_down = true ∧
      (cal_max_speed c5St
        { baseTick with roadLimit := ⟨20, false⟩ }).slowing_down = false :=
  ⟨((scc_C5_slowing_down_logic baseState
      { baseTick with roadLimit := ⟨50, false⟩ }).1
      (by norm_num) (by norm_num [baseTick, baseCS]) rfl rfl).1,
   ((scc_C5_slowing_down_logic c5St
      { baseTick with roadLimit := ⟨20, false⟩ }).2.2
      (by norm_num)).2⟩

/-- C1 counterexample: in the longcontrol configuration, update emits a
synthetic frame on a tick where the vehicle is at standstill (adaptive
cruise engaged, no physical button pressed), contradicting the claim
quantified over every combination of telemetry and controller state. -/
theorem scc_C1_counterexample :
    c1Tick.CS.standstill = true ∧
      (update c1St c1Tick).sends = [⟨0, Buttons.RES_ACCEL⟩] := by
  constructor
  · rfl
  · with_unfolding_all decide

/-- C1 (amended): no synthetic frame is ever appended when adaptive cruise
is not actively engaged (ascc_enabled false), in any configuration; and
when the controller is not in the longcontrol configuration, no frame is
appended on a tick with the vehicle at standstill or a physical cruise
button pressed. -/
theorem scc_C1_no_emit_guards (st : SccState) (tin : TickIn) :
    (asccEnabled tin = false → (update st tin).sends = []) ∧
    (st.longcontrol = false →
      (tin.CS.standstill = true ∨ tin.CS.cruise_buttons ≠ Buttons.NONE) →
      (update st tin).sends = []) := by
  constructor
  · intro h
    simp only [update]
    split
    · split
      · rfl
      · split
        · rfl
        · split
          · rfl
          · rename_i hguard
            exact absurd (Or.inr (Or.inl h)) hguard
    · rw [h]
      exact buttonPhase_false_snd _ _
  · intro hlc hor
    simp only [update]
    split
    · split
      · rfl
      · split
        · rfl
        · split
          · rfl
          · rename_i hguard
            refine absurd ?_ hguard
            rcases hor with h | h
            · exact Or.inr (Or.inr (Or.inl h))
            · exact Or.inr (Or.inr (Or.inr h))
    · rename_i hlc2
      rw [cal_max_speed_longcontrol] at hlc2
      exact absurd hlc hlc2

theorem scc_C1_witness :
    (update baseState { baseTick with enabled := false }).sends = [] ∧
      (update baseState c1Tick).sends = [] :=
  ⟨(scc_C1_no_emit_guards baseState { baseTick with enabled := false }).1
      (by decide),
   (scc_C1_no_emit_guards baseState c1Tick).2 rfl (Or.inl rfl)⟩

/-- C6 counterexample: with the smoothing feature disabled but the
longcontrol configuration active, update still emits a synthetic frame
and leaves the target speed untouched — the disabled check is only made
on the non-longcontrol path. -/
theorem scc_C6_counterexample :
    c6St.scc_smoother_enabled = false ∧
      (update c6St baseTick).sends = [⟨0, Buttons.RES_ACCEL⟩] ∧
      (update c6St baseTick).st.target_speed = 50 := by
  refine ⟨rfl, ?_, ?_⟩ <;> with_unfolding_all decide

/-- C6 (amended): when the controller is not in the longcontrol
configuration and the smoothing feature is disabled, update appends no
synthetic frame and zeroes all target-speed state: target speed 0, both
button timers 0, no active button, history cleared (and the smoothed
ceiling and curve speed cleared as well). -/
theorem scc_C6_disabled_resets (st : SccState) (tin : TickIn)
    (hlc : st.longcontrol = false) (hdis : st.scc_smoother_enabled = false) :
    (update st tin).sends = [] ∧
      (update st tin).st.target_speed = 0 ∧
      (update st tin).st.wait_timer = 0 ∧
      (update st tin).st.alive_timer = 0 ∧
      (update st tin).st.btn = Buttons.NONE ∧
      (update st tin).st.fused_decel = [] ∧
      (update st tin).st.max_speed = 0 ∧
      (update st tin).st.curve_speed = 0 := by
  have h1 : (cal_max_speed st tin).longcontrol = false := by
    rw [cal_max_speed_longcontrol]; exact hlc
  have h2 : (cal_max_speed st tin).scc_smoother_enabled = false := by
    rw [cal_max_speed_scc_smoother_enabled]; exact hdis
  simp [update, h1, h2, reset]

theorem scc_C6_witness :
    (update { baseState with scc_smoother_enabled := false } baseTick).sends
        = [] ∧
      (update { baseState with scc_smoother_enabled := false }
        baseTick).st.target_speed = 0 :=
  ⟨(scc_C6_disabled_resets { baseState with scc_smoother_enabled := false }
      baseTick rfl rfl).1,
   (scc_C6_disabled_resets { baseState with scc_smoother_enabled := false }
      baseTick rfl rfl).2.1⟩

theorem update_smooth (st : SccState) (tin : TickIn)
    (hlc : st.longcontrol = false) (hen : st.scc_smoother_enabled = true)
    (hstate : st.state ≠ 0)
    (hlast : st.last_cruise_buttons = tin.CS.cruise_buttons)
    (hsteady : SteadyIn tin) :
    (update st tin).sends = (buttonPhase (smoothStage st tin) tin true).2 ∧
      (update st tin).st = (buttonPhase (smoothStage st tin) tin true).1 := by
  obtain ⟨ha, hss, hbtn⟩ := hsteady
  have h1 : (cal_max_speed st tin).longcontrol = false := by
    rw [cal_max_speed_longcontrol]; exact hlc
  have h2 : (cal_max_speed st tin).scc_smoother_enabled = true := by
    rw [cal_max_speed_scc_smoother_enabled]; exact hen
  have hd : dispatch_buttons (cal_max_speed st tin) tin.CS =
      (cal_max_speed st tin, false, none) :=
    dispatch_buttons_same _ _ (by
      rw [cal_max_speed_last_cruise_buttons]; exact hlast)
  simp only [update, h1, h2, hd, cal_max_speed_state, ha, hss, hbtn,
    smoothStage]
  simp [hstate]

theorem smoothStage_state (st : SccState) (tin : TickIn) :
    (smoothStage st tin).state = st.state := by
  simp only [smoothStage, cal_target_speed_state,
    cal_max_speed_state]

theorem smoothStage_scc_smoother_enabled (st : SccState) (tin : TickIn) :
    (smoothStage st tin).scc_smoother_enabled = st.scc_smoother_enabled := by
  simp only [smoothStage, cal_target_speed_scc_smoother_enabled,
    cal_max_speed_scc_smoother_enabled]

theorem smoothStage_longcontrol (st : SccState) (tin : TickIn) :
    (smoothStage st tin).longcontrol = st.longcontrol := by
  simp only [smoothStage, cal_target_speed_longcontrol,
    cal_max_speed_longcontrol]

theorem smoothStage_last_cruise_buttons (st : SccState) (tin : TickIn) :
    (smoothStage st tin).last_cruise_buttons = st.last_cruise_buttons := by
  simp only [smoothStage, cal_target_speed_last_cruise_buttons,
    cal_max_speed_last_cruise_buttons]

theorem smoothStage_wait_timer (st : SccState) (tin : TickIn) :
    (smoothStage st tin).wait_timer = st.wait_timer := by
  simp only [smoothStage, cal_target_speed_wait_timer,
    cal_max_speed_wait_timer]

theorem smoothStage_alive_timer (st : SccState) (tin : TickIn) :
    (smoothStage st tin).alive_timer = st.alive_timer := by
  simp only [smoothStage, cal_target_speed_alive_timer,
    cal_max_speed_alive_timer]

theorem smoothStage_btn (st : SccState) (tin : TickIn) :
    (smoothStage st tin).btn = st.btn := by
  simp only [smoothStage, cal_target_speed_btn,
    cal_max_speed_btn]

theorem smoothStage_alive_count (st : SccState) (tin : TickIn) :
    (smoothStage st tin).alive_count = st.alive_count := by
  simp only [smoothStage, cal_target_speed_alive_count,
    cal_max_speed_alive_count]

theorem smoothStage_aliveIndex (st : SccState) (tin : TickIn) :
    (smoothStage st tin).aliveIndex = st.aliveIndex := by
  simp only [smoothStage, cal_target_speed_aliveIndex,
    cal_max_speed_aliveIndex]

theorem smoothStage_waitIndex (st : SccState) (tin : TickIn) :
    (smoothStage st tin).waitIndex = st.waitIndex := by
  simp only [smoothStage, cal_target_speed_waitIndex,
    cal_max_speed_waitIndex]

theorem smoothStage_waitList (st : SccState) (tin : TickIn) :
    (smoothStage st tin).waitList = st.waitList := by
  simp only [smoothStage, cal_target_speed_waitList,
    cal_max_speed_waitList]

theorem buttonPhase_mid (s : SccState) (t : TickIn)
    (hw : s.wait_timer = 0) (hk : s.alive_timer ≠ 0)
    (hb : s.btn ≠ Buttons.NONE) :
    buttonPhase s t true =
      (if s.alive_count ≤ s.alive_timer + 1 then
        { s with
          alive_timer := 0
          wait_timer := s.waitList.getD s.waitIndex 0
          waitIndex :=
            if s.waitList.length ≤ s.waitIndex + 1 then 0 else s.waitIndex + 1
          btn := Buttons.NONE }
      else { s with alive_timer := s.alive_timer + 1 },
      [⟨s.alive_timer, s.btn⟩]) := by
  have hw' : ¬0 < s.wait_timer := by omega
  simp only [buttonPhase, if_neg hw', if_true, if_neg hk, if_pos hb]

theorem update_mid (tin : TickIn) (b : Buttons) (n : ℕ) (wl : List ℕ)
    (wi : ℕ) (k : ℕ) (st : SccState)
    (hM : Mid tin b n wl wi k st) (hsteady : SteadyIn tin)
    (hb : b ≠ Buttons.NONE) (hk : k ≠ 0) :
    (update st tin).sends = [⟨k, b⟩] ∧
      (n ≤ k + 1 →
        (update st tin).st.alive_timer = 0 ∧
          (update st tin).st.btn = Buttons.NONE ∧
          (update st tin).st.wait_timer = wl.getD wi 0 ∧
          (update st tin).st.waitIndex =
            (if wl.length ≤ wi + 1 then 0 else wi + 1) ∧
          (update st tin).st.waitList = wl) ∧
      (k + 1 < n → Mid tin b n wl wi (k + 1) (update st tin).st) := by
  obtain ⟨h1, h2, h3, h4, h5, h6, h7, h8, h9, h10⟩ := hM
  have hu := update_smooth st tin h1 h2 (by rw [h3]; exact one_ne_zero) h4
    hsteady
  have p1 : (smoothStage st tin).wait_timer = 0 := by
    rw [smoothStage_wait_timer]; exact h5
  have p2 : (smoothStage st tin).alive_timer = k := by
    rw [smoothStage_alive_timer]; exact h6
  have p3 : (smoothStage st tin).btn = b := by
    rw [smoothStage_btn]; exact h7
  have p4 : (smoothStage st tin).alive_count = n := by
    rw [smoothStage_alive_count]; exact h8
  have p5 : (smoothStage st tin).waitList = wl := by
    rw [smoothStage_waitList]; exact h9
  have p6 : (smoothStage st tin).waitIndex = wi := by
    rw [smoothStage_waitIndex]; exact h10
  have p7 : (smoothStage st tin).longcontrol = false := by
    rw [smoothStage_longcontrol]; exact h1
  have p8 : (smoothStage st tin).scc_smoother_enabled = true := by
    rw [smoothStage_scc_smoother_enabled]; exact h2
  have p9 : (smoothStage st tin).state = 1 := by
    rw [smoothStage_state]; exact h3
  have p10 : (smoothStage st tin).last_cruise_buttons =
      tin.CS.cruise_buttons := by
    rw [smoothStage_last_cruise_buttons]; exact h4
  have hbp := buttonPhase_mid (smoothStage st tin) tin p1
    (by rw [p2]; exact hk) (by rw [p3]; exact hb)
  rw [hu.1, hu.2, hbp]
  refine ⟨by simp [p2, p3], ?_, ?_⟩
  · intro hfin
    have hcond : (smoothStage st tin).alive_count ≤
        (smoothStage st tin).alive_timer + 1 := by
      rw [p2, p4]; exact hfin
    simp only [if_pos hcond]
    simp [p5, p6]
  · intro hlt
    have hcond : ¬((smoothStage st tin).alive_count ≤
        (smoothStage st tin).alive_timer + 1) := by
      rw [p2, p4]; omega
    simp only [if_neg hcond]
    exact ⟨p7, p8, p9, p10, p1, by simp [p2], p3, p4, p5, p6⟩

theorem buttonPhase_start (s : SccState) (t : TickIn)
    (hw : s.wait_timer = 0) (h0 : s.alive_timer = 0)
    (hb : get_button s t.CS.clu11_speed
      (t.CS.cruiseState_speed * MS_TO_KPH) ≠ Buttons.NONE)
    (hn : 2 ≤ ALIVE_COUNT.getD s.aliveIndex 0) :
    buttonPhase s t true =
      ({ s with
          btn := get_button s t.CS.clu11_speed
            (t.CS.cruiseState_speed * MS_TO_KPH)
          alive_count := ALIVE_COUNT.getD s.aliveIndex 0
          aliveIndex := if 2 ≤ s.aliveIndex + 1 then 0 else s.aliveIndex + 1
          started_frame := t.frame
          alive_timer := 1 },
        [⟨0, get_button s t.CS.clu11_speed
          (t.CS.cruiseState_speed * MS_TO_KPH)⟩]) := by
  have hw' : ¬0 < s.wait_timer := by omega
  simp only [buttonPhase, if_neg hw', if_true, if_pos h0, if_pos hb, h0]
  rw [if_neg (by
    simp only [List.getD, List.get?_eq_getElem?] at hn ⊢
    simp
    omega)]

theorem update_start (st : SccState) (tin : TickIn)
    (hlc : st.longcontrol = false) (hen : st.scc_smoother_enabled = true)
    (hstate : st.state = 1)
    (hlast : st.last_cruise_buttons = tin.CS.cruise_buttons)
    (hwait : st.wait_timer = 0) (halive : st.alive_timer = 0)
    (hsteady : SteadyIn tin)
    (hb : get_button (smoothStage st tin) tin.CS.clu11_speed
      (tin.CS.cruiseState_speed * MS_TO_KPH) ≠ Buttons.NONE)
    (hn : 2 ≤ ALIVE_COUNT.getD st.aliveIndex 0) :
    (update st tin).sends = [⟨0, get_button (smoothStage st tin)
      tin.CS.clu11_speed (tin.CS.cruiseState_speed * MS_TO_KPH)⟩] ∧
      Mid tin (get_button (smoothStage st tin) tin.CS.clu11_speed
          (tin.CS.cruiseState_speed * MS_TO_KPH))
        (ALIVE_COUNT.getD st.aliveIndex 0) st.waitList st.waitIndex 1
        (update st tin).st ∧
      (update st tin).st.aliveIndex =
        (if 2 ≤ st.aliveIndex + 1 then 0 else st.aliveIndex + 1) := by
  have hu := update_smooth st tin hlc hen (by rw [hstate]; exact one_ne_zero)
    hlast hsteady
  have p1 : (smoothStage st tin).wait_timer = 0 := by
    rw [smoothStage_wait_timer]; exact hwait
  have p2 : (smoothStage st tin).alive_timer = 0 := by
    rw [smoothStage_alive_timer]; exact halive
  have pa : (smoothStage st tin).aliveIndex = st.aliveIndex :=
    smoothStage_aliveIndex st tin
  have hbp := buttonPhase_start (smoothStage st tin) tin p1 p2 hb
    (by rw [pa]; exact hn)
  rw [hu.1, hu.2, hbp]
  refine ⟨rfl, ?_, by simp [pa]⟩
  refine ⟨?_, ?_, ?_, ?_, ?_, ?_, ?_, ?_, ?_, ?_⟩
  · simpa [smoothStage_longcontrol] using hlc
  · simpa [smoothStage_scc_smoother_enabled] using hen
  · simpa [smoothStage_state] using hstate
  · simpa [smoothStage_last_cruise_buttons] using hlast
  · simpa [smoothStage_wait_timer] using hwait
  · rfl
  · rfl
  · simp [pa]
  · simp [smoothStage_waitList]
  · simp [smoothStage_waitIndex]

/-- C3: starting from an idle protocol state in SMOOTH mode, if the tick
computes a non-idle button (a SENDING phase begins), then under steady
engaged telemetry the phase emits exactly one frame per tick (and update
never emits more than one frame on any tick in any state), the frame
counter CF_Clu_AliveCnt1 starts at 0 and increments by exactly 1 on each
subsequent tick of the phase, the phase lasts exactly
ALIVE_COUNT.getD st.aliveIndex 0 ticks, which is 6 or 8, drawn from
ALIVE_COUNT at the round-robin index, and the index rotates modulo 2
across phases. -/
theorem scc_C3_sending_phase (st : SccState) (tin : TickIn)
    (hlc : st.longcontrol = false) (hen : st.scc_smoother_enabled = true)
    (hstate : st.state = 1)
    (hlast : st.last_cruise_buttons = tin.CS.cruise_buttons)
    (hwait : st.wait_timer = 0) (halive : st.alive_timer = 0)
    (hidx : st.aliveIndex < 2)
    (hperm : st.waitList.Perm WAIT_COUNT)
    (hwidx : st.waitIndex < st.waitList.length)
    (hsteady : SteadyIn tin)
    (hb : get_button (smoothStage st tin) tin.CS.clu11_speed
      (tin.CS.cruiseState_speed * MS_TO_KPH) ≠ Buttons.NONE) :
    (ALIVE_COUNT.getD st.aliveIndex 0 = 6 ∨
        ALIVE_COUNT.getD st.aliveIndex 0 = 8) ∧
      (∀ (s : SccState) (t : TickIn), ((update s t).sends).length ≤ 1) ∧
      (∀ k, k < ALIVE_COUNT.getD st.aliveIndex 0 →
        sendsAt st tin k = [⟨k, get_button (smoothStage st tin)
          tin.CS.clu11_speed (tin.CS.cruiseState_speed * MS_TO_KPH)⟩]) ∧
      sendsAt st tin (ALIVE_COUNT.getD st.aliveIndex 0) = [] ∧
      (iterState st tin 1).aliveIndex = (st.aliveIndex + 1) % 2 := by
  have h01 : st.aliveIndex = 0 ∨ st.aliveIndex = 1 := by omega
  have hn68 : ALIVE_COUNT.getD st.aliveIndex 0 = 6 ∨
      ALIVE_COUNT.getD st.aliveIndex 0 = 8 := by
    rcases h01 with h | h <;> rw [h]
    · left; rfl
    · right; rfl
  have hn2 : 2 ≤ ALIVE_COUNT.getD st.aliveIndex 0 := by
    rcases hn68 with h | h <;> omega
  have hstart := update_start st tin hlc hen hstate hlast hwait halive
    hsteady hb hn2
  have mids : ∀ j, 1 ≤ j → j < ALIVE_COUNT.getD st.aliveIndex 0 →
      Mid tin (get_button (smoothStage st tin) tin.CS.clu11_speed
          (tin.CS.cruiseState_speed * MS_TO_KPH))
        (ALIVE_COUNT.getD st.aliveIndex 0) st.waitList st.waitIndex j
        (iterState st tin j) := by
    intro j
    induction j with
    | zero => omega
    | succ i ih =>
        intro h1 h2
        rcases Nat.eq_zero_or_pos i with hi | hi
        · subst hi
          exact hstart.2.1
        · have hMi := ih (by omega) (by omega)
          have := (update_mid tin _ _ _ _ i (iterState st tin i) hMi hsteady
            hb (by omega)).2.2 (by omega)
          exact this
  have sends : ∀ k, k < ALIVE_COUNT.getD st.aliveIndex 0 →
      sendsAt st tin k = [⟨k, get_button (smoothStage st tin)
        tin.CS.clu11_speed (tin.CS.cruiseState_speed * MS_TO_KPH)⟩] := by
    intro k hk
    cases k with
    | zero => exact hstart.1
    | succ i =>
        have hMk := mids (i + 1) (by omega) hk
        exact (update_mid tin _ _ _ _ (i + 1) (iterState st tin (i + 1)) hMk
          hsteady hb (by omega)).1
  refine ⟨hn68, update_sends_len, sends, ?_, ?_⟩
  · have hNpos : 1 ≤ ALIVE_COUNT.getD st.aliveIndex 0 := by omega
    have hMlast := mids (ALIVE_COUNT.getD st.aliveIndex 0 - 1) (by omega)
      (by omega)
    have hfin := (update_mid tin _ _ _ _
      (ALIVE_COUNT.getD st.aliveIndex 0 - 1)
      (iterState st tin (ALIVE_COUNT.getD st.aliveIndex 0 - 1)) hMlast
      hsteady hb (by omega)).2.1 (by omega)
    have hiter : iterState st tin (ALIVE_COUNT.getD st.aliveIndex 0) =
        (update (iterState st tin (ALIVE_COUNT.getD st.aliveIndex 0 - 1))
          tin).st := by
      have hN : ALIVE_COUNT.getD st.aliveIndex 0 =
          (ALIVE_COUNT.getD st.aliveIndex 0 - 1) + 1 := by omega
      rw [hN]
      rfl
    have hmem : st.waitList.getD st.waitIndex 0 ∈ WAIT_COUNT := by
      have hg : st.waitList.getD st.waitIndex 0 =
          st.waitList.get ⟨st.waitIndex, hwidx⟩ := List.getD_eq_get _ _ _
      rw [hg]
      exact hperm.mem_iff.mp (List.get_mem _ _ _)
    have hpos : 0 < st.waitList.getD st.waitIndex 0 := by
      simp only [WAIT_COUNT, List.mem_cons, List.not_mem_nil, or_false] at hmem
      rcases hmem with h | h | h | h | h <;> rw [h] <;> norm_num
    have hwpos : 0 < (iterState st tin
        (ALIVE_COUNT.getD st.aliveIndex 0)).wait_timer := by
      rw [hiter, hfin.2.2.1]
      exact hpos
    exact update_wait_pos_sends _ _ hwpos
  · have h5 := hstart.2.2
    have h1eq : iterState st tin 1 = (update st tin).st := rfl
    rw [h1eq, h5]
    rcases h01 with h | h <;> simp [h]

theorem scc_C3_witness :
    sendsAt baseState baseTick 3 = [⟨3, Buttons.RES_ACCEL⟩] ∧
      sendsAt baseState baseTick 6 = [] := by
  have h := scc_C3_sending_phase baseState baseTick rfl rfl rfl rfl rfl rfl
    (by decide) (List.Perm.refl _) (by decide)
    ⟨by decide, rfl, rfl⟩ (by with_unfolding_all decide)
  constructor
  · have h3 := h.2.2.1 3 (by decide)
    rw [h3]
    have hbv : get_button (smoothStage baseState baseTick)
        baseTick.CS.clu11_speed (baseTick.CS.cruiseState_speed * MS_TO_KPH) =
        Buttons.RES_ACCEL := by with_unfolding_all decide
    rw [hbv]
  · have h6 := h.2.2.2.1
    have he : ALIVE_COUNT.getD baseState.aliveIndex 0 = 6 := by decide
    rwa [he] at h6

/-- C4: on the tick that completes a SENDING phase, the protocol loads the
cooldown timer with the entry of the shuffled WAIT_COUNT table at the
round-robin index (a value of the set {12, 13, 14, 15, 16}), advances
that index modulo 5, clears the latched button and the alive timer; and
on every tick that starts with a positive cooldown timer, update emits
zero synthetic frames, regardless of telemetry and of the persisting
target-speed error. -/
theorem scc_C4_cooldown_phase (st : SccState) (tin : TickIn)
    (hlc : st.longcontrol = false) (hen : st.scc_smoother_enabled = true)
    (hstate : st.state = 1)
    (hlast : st.last_cruise_buttons = tin.CS.cruise_buttons)
    (hsteady : SteadyIn tin)
    (hwait : st.wait_timer = 0)
    (hb : st.btn ≠ Buttons.NONE) (hk : st.alive_timer ≠ 0)
    (hfin : st.alive_count ≤ st.alive_timer + 1)
    (hperm : st.waitList.Perm WAIT_COUNT)
    (hwidx : st.waitIndex < st.waitList.length) :
    (update st tin).st.wait_timer = st.waitList.getD st.waitIndex 0 ∧
      st.waitList.getD st.waitIndex 0 ∈ WAIT_COUNT ∧
      (update st tin).st.waitIndex = (st.waitIndex + 1) % 5 ∧
      (update st tin).st.btn = Buttons.NONE ∧
      (update st tin).st.alive_timer = 0 ∧
      (∀ (s : SccState) (t : TickIn), 0 < s.wait_timer →
        (update s t).sends = []) := by
  have hM : Mid tin st.btn st.alive_count st.waitList st.waitIndex
      st.alive_timer st :=
    ⟨hlc, hen, hstate, hlast, hwait, rfl, rfl, rfl, rfl, rfl⟩
  have hu := (update_mid tin _ _ _ _ _ st hM hsteady hb hk).2.1 hfin
  have hlen : st.waitList.length = 5 := by
    have hq := hperm.length_eq
    simpa [WAIT_COUNT] using hq
  have hmem : st.waitList.getD st.waitIndex 0 ∈ WAIT_COUNT := by
    have hg : st.waitList.getD st.waitIndex 0 =
        st.waitList.get ⟨st.waitIndex, hwidx⟩ := List.getD_eq_get _ _ _
    rw [hg]
    exact hperm.mem_iff.mp (List.get_mem _ _ _)
  refine ⟨hu.2.2.1, hmem, ?_, hu.2.1, hu.1, update_wait_pos_sends⟩
  rw [hu.2.2.2.1, hlen]
  rcases Nat.lt_or_ge (st.waitIndex + 1) 5 with h | h
  · rw [if_neg (by omega), Nat.mod_eq_of_lt h]
  · have h5 : st.waitIndex = 4 := by omega
    rw [h5]
    rfl

theorem scc_C4_witness :
    (update c4St baseTick).st.wait_timer = 12 ∧
      (update c4St baseTick).st.waitIndex = 1 ∧
      (update c4St baseTick).st.btn = Buttons.NONE := by
  have h := scc_C4_cooldown_phase c4St baseTick rfl rfl rfl rfl
    ⟨by decide, rfl, rfl⟩ rfl (by decide) (by decide) (by decide)
    (List.Perm.refl _) (by decide)
  refine ⟨?_, ?_, h.2.2.2.1⟩
  · have hw := h.1
    rwa [show c4St.waitList.getD c4St.waitIndex 0 = 12 from rfl] at hw
  · have hw := h.2.2.1
    rwa [show (c4St.waitIndex + 1) % 5 = 1 from rfl] at hw

theorem dispatch_buttons_toggle (st : SccState) (cs : CarStateIn)
    (hdiff : st.last_cruise_buttons ≠ cs.cruise_buttons)
    (hdis : cs.cruiseState_enabled = false)
    (hbtn : (st.switch_only_with_gap = false ∧
        cs.cruise_buttons = Buttons.CANCEL) ∨
      cs.cruise_buttons = Buttons.GAP_DIST) :
    dispatch_buttons st cs =
      ({ st with
          last_cruise_buttons := cs.cruise_buttons
          state := if 2 ≤ st.state + 1 then 0 else st.state + 1
          state_changed_alert := true },
        true, some (if 2 ≤ st.state + 1 then 0 else st.state + 1)) := by
  simp only [dispatch_buttons, if_pos hdiff, hdis]
  rw [if_pos ⟨trivial, hbtn⟩]

/-- C8: on a rising edge of the designated physical button (gap button, or
cancel when not restricted to gap-only) while cruise is disengaged, in
the non-longcontrol enabled configuration, update toggles the mode
between STOCK (0) and SMOOTH (1), persists the new mode to the settings
store, fully resets the transient controller state, emits no frame, and
queues exactly one one-shot mode-change alert: the first inject_events
call emits the alert once and clears the flag, and a second call emits
nothing. -/
theorem scc_C8_mode_toggle (st : SccState) (tin : TickIn)
    (hlc : st.longcontrol = false) (hen : st.scc_smoother_enabled = true)
    (hdiff : st.last_cruise_buttons ≠ tin.CS.cruise_buttons)
    (hdis : tin.CS.cruiseState_enabled = false)
    (hbtn : (st.switch_only_with_gap = false ∧
        tin.CS.cruise_buttons = Buttons.CANCEL) ∨
      tin.CS.cruise_buttons = Buttons.GAP_DIST)
    (hstate : st.state ≤ 1) :
    (update st tin).sends = [] ∧
      (update st tin).st.state = (if st.state = 0 then 1 else 0) ∧
      (update st tin).persisted = some (if st.state = 0 then 1 else 0) ∧
      (update st tin).st.target_speed = 0 ∧
      (update st tin).st.wait_timer = 0 ∧
      (update st tin).st.alive_timer = 0 ∧
      (update st tin).st.btn = Buttons.NONE ∧
      (update st tin).st.fused_decel = [] ∧
      (update st tin).st.state_changed_alert = true ∧
      (inject_events (update st tin).st).2 = [EventName.sccSmootherStatus] ∧
      (inject_events (update st tin).st).1.state_changed_alert = false ∧
      (inject_events (inject_events (update st tin).st).1).2 = [] := by
  have h1 : (cal_max_speed st tin).longcontrol = false := by
    rw [cal_max_speed_longcontrol]; exact hlc
  have h2 : (cal_max_speed st tin).scc_smoother_enabled = true := by
    rw [cal_max_speed_scc_smoother_enabled]; exact hen
  have hd := dispatch_buttons_toggle (cal_max_speed st tin) tin.CS
    (by rw [cal_max_speed_last_cruise_buttons]; exact hdiff) hdis
    (by rw [cal_max_speed_switch_only_with_gap]; exact hbtn)
  have hs2 : (if 2 ≤ (cal_max_speed st tin).state + 1 then 0
      else (cal_max_speed st tin).state + 1) =
      (if st.state = 0 then 1 else 0) := by
    rw [cal_max_speed_state]
    have h01 : st.state = 0 ∨ st.state = 1 := by omega
    rcases h01 with h | h <;> simp [h]
  rw [hs2] at hd
  simp only [update, h1, h2, hd]
  simp [reset, inject_events]

theorem scc_C8_witness :
    (update { baseState with state := 0 } c8Tick).st.state = 1 ∧
      (update { baseState with state := 0 } c8Tick).persisted = some 1 ∧
      (inject_events (update { baseState with state := 0 } c8Tick).st).2 =
        [EventName.sccSmootherStatus] := by
  have h := scc_C8_mode_toggle { baseState with state := 0 } c8Tick rfl rfl
    (by decide) rfl (Or.inr rfl) (by decide)
  refine ⟨?_, ?_, h.2.2.2.2.2.2.2.2.2.1⟩
  · have hx := h.2.1
    simpa using hx
  · have hx := h.2.2.1
    simpa using hx
